import Mathlib

/-!
Verification of the structure-from-known-poses pipeline
(`src/software/pipeline/main_computeStructureFromKnownPoses.cpp`).

The entry point (command-line handling, input loading, pair-selection
dispatch, the pipeline call sequence, the fixed outlier threshold, and the
save/exit logic) is embedded from the source file.  The library components
it calls (frustum pair selection, pair filtering, track filtering,
triangulation, angular outlier rejection) are not part of the sources, so
they are modelled from the specification; external effects (file loading,
saving, descriptor matching, the geometric oracles) are abstracted into an
environment record.
-/

namespace AVKnownPoses

/-- View/pose/intrinsic identifier (IndexT in the source). -/
abbrev IndexT := Nat

/-- A 2D observation node: (view identifier, region index). -/
abbrev Node := IndexT × Nat

/-- An image pair: two view identifiers. -/
abbrev ImagePair := IndexT × IndexT

/-- A triangulated 3D position (the numeric triangulation itself is
abstracted into the environment, see Env.triangulatePoint). -/
abbrev Point := Rat × Rat × Rat

/-- Modelled from the spec: a View is an image with a unique identifier and
optional Intrinsic and Pose identifiers (unset until calibrated). -/
structure View where
  id : IndexT
  intrinsicId : Option IndexT
  poseId : Option IndexT
deriving DecidableEq, Repr

/-- Modelled from the spec: a Landmark is a 3D position plus the set of
(View, Region-index) observations supporting it. -/
structure Landmark where
  X : Point
  observations : List Node
deriving DecidableEq, Repr

/-- Modelled from the spec: the scene dataset - Views, Intrinsics, Poses
(read-only inputs) and the mutable landmark container.  Intrinsics and
poses are modelled by the lists of identifiers that are defined. -/
structure SfMData where
  views : List View
  intrinsics : List IndexT
  poses : List IndexT
  structure_ : List Landmark
deriving DecidableEq, Repr

/-- Modelled from the spec: a view is valid when both its Intrinsic and its
Pose identifiers are set and refer to defined entries of the scene. -/
def isViewValid (s : SfMData) (v : View) : Bool :=
  (match v.intrinsicId with
   | some k => s.intrinsics.contains k
   | none => false)
  &&
  (match v.poseId with
   | some k => s.poses.contains k
   | none => false)

/-- Modelled from the spec: getValidViews returns the identifiers of the
views that have both a valid Intrinsic and a valid Pose. -/
def getValidViews (s : SfMData) : List IndexT :=
  (s.views.filter (isViewValid s)).map View.id

/-- All ordered pairs (x, y) where x occurs before y in the list; used to
enumerate the unordered pairs of a list of views or observations. -/
def listPairs {α : Type} : List α → List (α × α)
  | [] => []
  | x :: rest => rest.map (fun y => (x, y)) ++ listPairs rest

/-- Modelled from the spec: the matches loaded from a matches directory, a
mapping from image pair to its correspondences (region-index pairs). -/
abbrev PairwiseMatches := List (ImagePair × List (Nat × Nat))

/-- Modelled from the spec: getImagePairs extracts the set of pairs present
in a loaded match set. -/
def getImagePairs (ms : PairwiseMatches) : List ImagePair :=
  ms.map (fun e => e.1)

/-- Modelled from the spec: Pair_filter keeps only the pairs whose two view
identifiers both belong to the given valid-view index set. -/
def Pair_filter (ps : List ImagePair) (validIdx : List IndexT) : List ImagePair :=
  ps.filter (fun p => validIdx.contains p.1 && validIdx.contains p.2)

/-- The environment abstracting the external collaborators of the entry
point: the three loaders (scene, regions, matches), the saver, and the
geometric oracles used by the spec-modelled pipeline components.  `none` /
`false` on a loader means the corresponding input cannot be read. -/
structure Env where
  loadScene : Option (List View × List IndexT × List IndexT)
  loadRegionsOk : Bool
  loadMatches : Option PairwiseMatches
  frustumIntersect : IndexT → IndexT → Bool
  matchPair : ImagePair → List (Nat × Nat)
  corrOk : ImagePair → Nat × Nat → Bool
  triangulatePoint : List Node → Point
  depth : Point → IndexT → Rat
  parallax : Point → IndexT → IndexT → Rat
  angleAtPoint : Point → IndexT → IndexT → Rat
  minTriAngle : Rat
  saveOk : Bool

/-- The scene built from a successful Load with flags VIEWS|INTRINSICS|
EXTRINSICS: the landmark container is not loaded, hence empty. -/
def sceneOfLoaded (ld : List View × List IndexT × List IndexT) : SfMData :=
  { views := ld.1, intrinsics := ld.2.1, poses := ld.2.2, structure_ := [] }

/-- Modelled from the spec: frustum-intersection pair selection (mode A) -
enumerate all pairs of views with valid Intrinsic+Pose and keep those whose
frustums overlap (the volumetric test is the environment's oracle). -/
def getFrustumIntersectionPairs (env : Env) (s : SfMData) : List ImagePair :=
  (listPairs (getValidViews s)).filter (fun p => env.frustumIntersect p.1 p.2)

/-- Modelled from the spec: the match step produces, per selected pair, the
putative geometry-guided correspondences (oracle per pair); the scene is
read-only for this step. -/
def matchStep (env : Env) (s : SfMData) (pairs : List ImagePair) :
    SfMData × List (ImagePair × (Nat × Nat)) :=
  (s, pairs.flatMap (fun p => (env.matchPair p).map (fun rr => (p, rr))))

/-- Modelled from the spec: connected components over the (view, region)
graph - each correspondence links its two endpoint nodes; components
sharing an endpoint are merged (union-find style). -/
def addEdge (cs : List (List Node)) (e : Node × Node) : List (List Node) :=
  match cs.find? (fun c => c.contains e.1), cs.find? (fun c => c.contains e.2) with
  | none, none => (if e.1 = e.2 then [e.1] else [e.1, e.2]) :: cs
  | some c, none => (e.2 :: c) :: cs.erase c
  | none, some c => (e.1 :: c) :: cs.erase c
  | some c1, some c2 => if c1 = c2 then cs else (c1 ++ c2) :: (cs.erase c1).erase c2

/-- Modelled from the spec: merge filtered correspondences into tracks by
connected components over the (view, region) graph. -/
def buildTracksFrom (corrs : List (Node × Node)) : List (List Node) :=
  corrs.foldl addEdge []

/-- Modelled from the spec: a track conflicts when it claims two different
region indices for the same view. -/
def trackConflict (t : List Node) : Bool :=
  (listPairs t).any (fun p => p.1.1 == p.2.1 && p.1.2 != p.2.2)

/-- Modelled from the spec: conflicting tracks are discarded. -/
def filterTracks (ts : List (List Node)) : List (List Node) :=
  ts.filter (fun t => !(trackConflict t))

/-- Modelled from the spec: the raw tracks of the filter step - geometric
re-verification of the correspondences (residual oracle) followed by track
merging. -/
def rawTracksOf (env : Env) (corr : List (ImagePair × (Nat × Nat))) :
    List (List Node) :=
  buildTracksFrom
    ((corr.filter (fun c => env.corrOk c.1 c.2)).map
      (fun c => ((c.1.1, c.2.1), (c.1.2, c.2.2))))

/-- Modelled from the spec: the filter step - verified correspondences are
merged into tracks and conflicting tracks are discarded; the scene is
read-only for this step. -/
def filterStep (env : Env) (s : SfMData) (corr : List (ImagePair × (Nat × Nat))) :
    SfMData × List (List Node) :=
  (s, filterTracks (rawTracksOf env corr))

/-- The landmark built from an accepted track: the triangulated position
plus the track's observations. -/
def mkLandmark (env : Env) (t : List Node) : Landmark :=
  { X := env.triangulatePoint t, observations := t }

/-- Modelled from the spec: the triangulated point has negative depth in
some observing view of the track. -/
def hasNegativeDepth (env : Env) (t : List Node) : Bool :=
  t.any (fun o => decide (env.depth (env.triangulatePoint t) o.1 < 0))

/-- Binary maximum on the rationals (std::max: the second argument when the
first is smaller). -/
def rmax (a b : Rat) : Rat :=
  if a < b then b else a

/-- Modelled from the spec: the maximum pairwise parallax angle across the
observations of a track (0 when fewer than two observations). -/
def maxParallaxOf (env : Env) (t : List Node) : Rat :=
  (listPairs t).foldl
    (fun m p => rmax m (env.parallax (env.triangulatePoint t) p.1.1 p.2.1)) 0

/-- Modelled from the spec: a track is accepted for triangulation when it
has at least 2 observations, the point has no negative depth in any
observing view, and the maximum pairwise parallax angle is not below the
minimum threshold. -/
def acceptTrack (env : Env) (t : List Node) : Bool :=
  decide (2 ≤ t.length)
  && !(hasNegativeDepth env t)
  && !(decide (maxParallaxOf env t < env.minTriAngle))

/-- Modelled from the spec: the triangulate step - every accepted track
becomes a Landmark added to the scene's structure container. -/
def triangulateStep (env : Env) (s : SfMData) (tracks : List (List Node)) :
    SfMData :=
  { s with structure_ :=
      s.structure_ ++ (tracks.filter (acceptTrack env)).map (mkLandmark env) }

/-- Modelled from the spec: the maximum angle subtended at a landmark's 3D
point between any two of its observing camera centers (0 when fewer than
two observations, the single-view degenerate case). -/
def maxPairAngle (env : Env) (L : Landmark) : Rat :=
  (listPairs L.observations).foldl
    (fun m p => rmax m (env.angleAtPoint L.X p.1.1 p.2.1)) 0

/-- Modelled from the spec: one pass of the outlier rejector over the
landmark list - a landmark whose maximum angle is strictly below the
threshold is erased and counted, the others are kept. -/
def removeOutliersLms (env : Env) (th : Rat) : List Landmark → List Landmark × Nat
  | [] => ([], 0)
  | L :: rest =>
    let r := removeOutliersLms env th rest
    if maxPairAngle env L < th then (r.1, r.2 + 1) else (L :: r.1, r.2)

/-- Modelled from the spec: removeOutliersByAngle - remove every Landmark
whose maximum inter-camera angle at the point is below the threshold and
return the count removed. -/
def RemoveOutliers_AngleError (env : Env) (s : SfMData) (th : Rat) :
    SfMData × Nat :=
  let r := removeOutliersLms env th s.structure_
  ({ s with structure_ := r.1 }, r.2)

/-- Clearing the previous 3D landmarks (sfm_data.structure.clear()). -/
def clearStructure (s : SfMData) : SfMData :=
  { s with structure_ := [] }

/-- A parsed command-line option: (long name, value). -/
abbrev OptArg := String × String

/-- The option names declared in allParams (required, optional and log
parameters of the entry point). -/
def recognizedOptions : List String :=
  ["input", "featuresDirectory", "output",
   "describerTypes", "matchesDirectory", "matchesGeometricModel", "verboseLevel"]

/-- po::store over the parsed command line: fails (po::error) when an
option name is not declared in allParams. -/
def storeOptions (args : List OptArg) : Option (List OptArg) :=
  if args.all (fun a => recognizedOptions.contains a.1) then some args else none

/-- vm.count(name): the number of occurrences of an option in the map. -/
def vmCount (vm : List OptArg) (name : String) : Nat :=
  (vm.filter (fun a => a.1 == name)).length

/-- po::notify succeeds only when the three required options (input,
featuresDirectory, output) are all present. -/
def requiredPresent (vm : List OptArg) : Bool :=
  vmCount vm "input" != 0
  && vmCount vm "featuresDirectory" != 0
  && vmCount vm "output" != 0

/-- The value bound to an option, or its default when absent. -/
def optValue (vm : List OptArg) (name dflt : String) : String :=
  match vm.find? (fun a => a.1 == name) with
  | some a => a.2
  | none => dflt

/-- Pair selection as dispatched by the entry point: frustum intersection
when no matches directory is supplied, otherwise loading the precomputed
matches (none when unreadable) and filtering their pairs to valid views. -/
def selectPairs (env : Env) (s : SfMData) (matchesDirectory : String) :
    Option (List ImagePair) :=
  if matchesDirectory == "" then
    some (getFrustumIntersectionPairs env s)
  else
    match env.loadMatches with
    | none => none
    | some ms => some (Pair_filter (getImagePairs ms) (getValidViews s))

/-- The scene states of one pipeline run: after Load, after
structure.clear(), after match, after filter, after triangulate, and after
RemoveOutliers_AngleError. -/
structure PipelineTrace where
  sLoaded : SfMData
  sCleared : SfMData
  sMatched : SfMData
  sFiltered : SfMData
  sTriangulated : SfMData
  sOutlierFiltered : SfMData
deriving DecidableEq, Repr

/-- The observable outcome of one invocation of the program. -/
structure RunResult where
  exitCode : Nat
  usageShown : Bool
  failedRequired : Bool
  selectedPairs : Option (List ImagePair)
  usedThreshold : Option Rat
  trace : Option PipelineTrace
  savedScene : Option SfMData
deriving DecidableEq, Repr

/-- The scene states produced by the pipeline call sequence of the entry
point on a loaded scene and a selected pair set. -/
def pipelineTraceOf (env : Env) (scene0 : SfMData) (pairs : List ImagePair) :
    PipelineTrace :=
  let s1 := clearStructure scene0
  let mc := matchStep env s1 pairs
  let fc := filterStep env mc.1 mc.2
  let s4 := triangulateStep env fc.1 fc.2
  let ro := RemoveOutliers_AngleError env s4 2
  ⟨scene0, s1, mc.1, fc.1, s4, ro.1⟩

/-- The pipeline portion of the entry point: clear the landmarks, match,
filter, triangulate, remove angular outliers at the fixed 2.0-degree
threshold, then save (exit failure when the save fails). -/
def runPipeline (env : Env) (scene0 : SfMData) (pairs : List ImagePair) :
    RunResult :=
  let tr := pipelineTraceOf env scene0 pairs
  { exitCode := if env.saveOk then 0 else 1
    usageShown := false
    failedRequired := false
    selectedPairs := some pairs
    usedThreshold := some 2
    trace := some tr
    savedScene := if env.saveOk then some tr.sOutlierFiltered else none }

/-- The entry point: command-line handling (usage on argc == 1, failure on
parse errors or missing required options), then the three loads (each
unreadable input is a hard failure before any structure exists), pair
selection, and the pipeline. -/
def mainRun (env : Env) (args : List OptArg) : RunResult :=
  match storeOptions args with
  | none => ⟨1, true, false, none, none, none, none⟩
  | some vm =>
    if vmCount vm "help" != 0 || args.length == 0 then
      ⟨0, true, false, none, none, none, none⟩
    else if !(requiredPresent vm) then
      ⟨1, true, true, none, none, none, none⟩
    else
      match env.loadScene with
      | none => ⟨1, false, false, none, none, none, none⟩
      | some ld =>
        if !env.loadRegionsOk then
          ⟨1, false, false, none, none, none, none⟩
        else
          match selectPairs env (sceneOfLoaded ld) (optValue vm "matchesDirectory" "") with
          | none => ⟨1, false, false, none, none, none, none⟩
          | some pairs => runPipeline env (sceneOfLoaded ld) pairs

/-! ## Helper lemmas -/

theorem mem_listPairs {α : Type} {p : α × α} :
    ∀ {l : List α}, p ∈ listPairs l → p.1 ∈ l ∧ p.2 ∈ l := by
  intro l
  induction l with
  | nil => intro h; simp [listPairs] at h
  | cons x rest ih =>
    intro h
    rw [listPairs, List.mem_append] at h
    rcases h with h | h
    · rcases List.mem_map.mp h with ⟨y, hy, hp⟩
      subst hp
      exact ⟨List.mem_cons_self x rest, List.mem_cons_of_mem x hy⟩
    · have := ih h
      exact ⟨List.mem_cons_of_mem x this.1, List.mem_cons_of_mem x this.2⟩

theorem removeOutliersLms_fst (env : Env) (th : Rat) (lms : List Landmark) :
    (removeOutliersLms env th lms).1
      = lms.filter (fun L => !(decide (maxPairAngle env L < th))) := by
  induction lms with
  | nil => rfl
  | cons L rest ih =>
    by_cases h : maxPairAngle env L < th
    · simp [removeOutliersLms, h, ih]
    · simp [removeOutliersLms, h, ih]

theorem removeOutliersLms_snd (env : Env) (th : Rat) (lms : List Landmark) :
    (removeOutliersLms env th lms).2 + (removeOutliersLms env th lms).1.length
      = lms.length := by
  induction lms with
  | nil => rfl
  | cons L rest ih =>
    by_cases h : maxPairAngle env L < th <;>
      simp [removeOutliersLms, h] <;> omega

theorem filter_filter_self {α : Type} (p : α → Bool) (l : List α) :
    (l.filter p).filter p = l.filter p := by
  induction l with
  | nil => rfl
  | cons x rest ih =>
    cases hp : p x <;> simp [List.filter_cons, hp, ih]

/-- Either the run stops before the pipeline (and then no pairs, threshold,
trace or scene are produced), or it reaches the pipeline on the loaded
scene and some selected pair set. -/
theorem mainRun_cases (env : Env) (args : List OptArg) :
    ((mainRun env args).selectedPairs = none
      ∧ (mainRun env args).usedThreshold = none
      ∧ (mainRun env args).trace = none
      ∧ (mainRun env args).savedScene = none)
    ∨ ∃ ld pairs, env.loadScene = some ld
        ∧ mainRun env args = runPipeline env (sceneOfLoaded ld) pairs := by
  unfold mainRun
  split
  · exact Or.inl ⟨rfl, rfl, rfl, rfl⟩
  · split
    · exact Or.inl ⟨rfl, rfl, rfl, rfl⟩
    · split
      · exact Or.inl ⟨rfl, rfl, rfl, rfl⟩
      · split
        · exact Or.inl ⟨rfl, rfl, rfl, rfl⟩
        · next ld hld =>
          split
          · exact Or.inl ⟨rfl, rfl, rfl, rfl⟩
          · split
            · exact Or.inl ⟨rfl, rfl, rfl, rfl⟩
            · next pairs hpairs => exact Or.inr ⟨ld, pairs, hld, rfl⟩

/-! ## Concrete inputs used by the witnesses -/

/-- An empty loaded scene (no views). -/
def ldC : List View × List IndexT × List IndexT := ([], [], [])

/-- An environment in which every input loads, the oracles are trivial and
the save succeeds. -/
def envBase : Env :=
  { loadScene := some ldC
    loadRegionsOk := true
    loadMatches := none
    frustumIntersect := fun _ _ => false
    matchPair := fun _ => []
    corrOk := fun _ _ => true
    triangulatePoint := fun _ => (0, 0, 0)
    depth := fun _ _ => 0
    parallax := fun _ _ _ => 0
    angleAtPoint := fun _ _ _ => 0
    minTriAngle := 0
    saveOk := true }

/-- Same as envBase but the output save fails. -/
def envNoSave : Env := { envBase with saveOk := false }

/-- Same as envBase but the scene file is unreadable. -/
def envNoScene : Env := { envBase with loadScene := none }

/-- A command line carrying exactly the three required options. -/
def argsReq : List OptArg :=
  [("input", "scene.sfm"), ("featuresDirectory", "feat"), ("output", "out.sfm")]

/-- A command line with one recognized option but no required option. -/
def argsOnlyVerbose : List OptArg := [("verboseLevel", "info")]

/-- The required options plus a matches directory (precomputed mode). -/
def argsMatches : List OptArg :=
  [("input", "scene.sfm"), ("featuresDirectory", "feat"), ("output", "out.sfm"),
   ("matchesDirectory", "m")]

/-- A command line with an option unknown to allParams (po::store fails). -/
def argsBad : List OptArg := [("bogus", "x")]

/-- A scene in which view 5 lacks an intrinsic while view 7 is valid. -/
def sInvalid : SfMData :=
  { views := [⟨5, none, some 0⟩, ⟨7, some 0, some 0⟩]
    intrinsics := [0]
    poses := [0]
    structure_ := [] }

/-- A precomputed match set naming the pair (5, 7). -/
def msW : PairwiseMatches := [((5, 7), [(0, 0)])]

/-- Two correspondences whose merge yields a track claiming two different
regions (0 and 1) for view 0. -/
def corrConf : List (ImagePair × (Nat × Nat)) :=
  [((0, 1), (0, 0)), ((0, 1), (1, 0))]

/-- The conflicting track those correspondences produce. -/
def tConf : List Node := [(0, 1), (0, 0), (1, 0)]

/-- A single non-conflicting correspondence. -/
def corrClean : List (ImagePair × (Nat × Nat)) := [((0, 1), (0, 0))]

/-- The consistent two-view track it produces. -/
def tClean : List Node := [(0, 0), (1, 0)]

/-- A landmark with two observations, used for the boundary-angle case. -/
def lmW : Landmark := ⟨(0, 0, 0), [(0, 0), (1, 0)]⟩

/-- A scene holding just that landmark. -/
def sLm : SfMData := { views := [], intrinsics := [], poses := [], structure_ := [lmW] }

/-! ## Claims -/

/-- Claim C1: a pair in which either view lacks a valid Intrinsic or a
valid Pose is excluded from the returned pair set, both in
frustum-intersection mode (no matches directory) and in
precomputed-matches mode (matches filtered to valid view indexes). -/
theorem pair_with_invalid_view_excluded
    (env : Env) (s : SfMData) (ms : PairwiseMatches) (i j : IndexT)
    (h : i ∉ getValidViews s) :
    ((i, j) ∉ getFrustumIntersectionPairs env s
      ∧ (j, i) ∉ getFrustumIntersectionPairs env s)
    ∧ ((i, j) ∉ Pair_filter (getImagePairs ms) (getValidViews s)
      ∧ (j, i) ∉ Pair_filter (getImagePairs ms) (getValidViews s)) := by
  constructor
  · constructor <;> intro hmem
    · exact h (mem_listPairs (List.mem_filter.mp hmem).1).1
    · exact h (mem_listPairs (List.mem_filter.mp hmem).1).2
  · constructor <;> intro hmem
    · have hc := (List.mem_filter.mp hmem).2
      rw [Bool.and_eq_true] at hc
      exact h (by simpa using hc.1)
    · have hc := (List.mem_filter.mp hmem).2
      rw [Bool.and_eq_true] at hc
      exact h (by simpa using hc.2)

/-- Claim C1 witness: in sInvalid, view 5 is invalid, and neither (5, 7)
nor (7, 5) is selected in either mode. -/
theorem pair_with_invalid_view_excluded_w :
    (5 : IndexT) ∉ getValidViews sInvalid
    ∧ (((5, 7) ∉ getFrustumIntersectionPairs envBase sInvalid
        ∧ (7, 5) ∉ getFrustumIntersectionPairs envBase sInvalid)
      ∧ ((5, 7) ∉ Pair_filter (getImagePairs msW) (getValidViews sInvalid)
        ∧ (7, 5) ∉ Pair_filter (getImagePairs msW) (getValidViews sInvalid))) :=
  ⟨by decide, pair_with_invalid_view_excluded envBase sInvalid msW 5 7 (by decide)⟩

/-- Claim C2: a track claiming two different region indices for the same
view is discarded by the filter step before triangulation, and the
discarding does not affect any non-conflicting track of the same run
(membership in the filtered track list is unchanged for such tracks). -/
theorem conflicting_track_discarded_by_filter
    (env : Env) (corr : List (ImagePair × (Nat × Nat))) (t : List Node) :
    (trackConflict t = true → t ∉ filterTracks (rawTracksOf env corr))
    ∧ (trackConflict t = false →
        (t ∈ filterTracks (rawTracksOf env corr) ↔ t ∈ rawTracksOf env corr)) := by
  constructor
  · intro hc hmem
    have hkeep := (List.mem_filter.mp hmem).2
    rw [hc] at hkeep
    cases hkeep
  · intro hc
    constructor
    · intro hmem
      exact (List.mem_filter.mp hmem).1
    · intro hmem
      exact List.mem_filter.mpr ⟨hmem, by rw [hc]; rfl⟩

/-- Claim C2 witness: the conflicting track built from corrConf is
discarded, while the clean track from an independent run is unaffected. -/
theorem conflicting_track_discarded_by_filter_w :
    (trackConflict tConf = true
      ∧ tConf ∉ filterTracks (rawTracksOf envBase corrConf))
    ∧ (trackConflict tClean = false
      ∧ (tClean ∈ filterTracks (rawTracksOf envBase corrClean)
          ↔ tClean ∈ rawTracksOf envBase corrClean)) :=
  ⟨⟨by decide,
    (conflicting_track_discarded_by_filter envBase corrConf tConf).1 (by decide)⟩,
   ⟨by decide,
    (conflicting_track_discarded_by_filter envBase corrClean tClean).2 (by decide)⟩⟩

/-- Claim C3: a track with at least two observations is rejected by the
triangulate step exactly when the triangulated point has negative depth in
some observing view or the maximum pairwise parallax angle is below the
minimum threshold; every track not rejected becomes a Landmark added to
the scene's structure container. -/
theorem triangulate_rejection_characterization (env : Env) (t : List Node)
    (h2 : 2 ≤ t.length) :
    (acceptTrack env t = false ↔
      ((∃ o ∈ t, env.depth (env.triangulatePoint t) o.1 < 0)
        ∨ maxParallaxOf env t < env.minTriAngle))
    ∧ (∀ (s : SfMData) (tracks : List (List Node)),
        t ∈ tracks → acceptTrack env t = true →
        mkLandmark env t ∈ (triangulateStep env s tracks).structure_) := by
  constructor
  · have hlen : decide (2 ≤ t.length) = true := decide_eq_true h2
    have hb : acceptTrack env t = false ↔
        (hasNegativeDepth env t = true
          ∨ decide (maxParallaxOf env t < env.minTriAngle) = true) := by
      unfold acceptTrack
      rw [hlen]
      cases hneg : hasNegativeDepth env t <;>
        cases hpar : decide (maxParallaxOf env t < env.minTriAngle) <;> simp
    rw [hb]
    apply or_congr
    · unfold hasNegativeDepth
      simp [List.any_eq_true]
    · simp
  · intro s tracks hmem hacc
    unfold triangulateStep
    simp only [List.mem_append, List.mem_map]
    exact Or.inr ⟨t, List.mem_filter.mpr ⟨hmem, hacc⟩, rfl⟩

/-- Claim C3 witness: the clean two-observation track is accepted under the
trivial oracles and its landmark appears in the structure container. -/
theorem triangulate_rejection_characterization_w :
    2 ≤ tClean.length
    ∧ mkLandmark envBase tClean ∈
        (triangulateStep envBase (sceneOfLoaded ldC) [tClean]).structure_ :=
  ⟨by decide,
   (triangulate_rejection_characterization envBase tClean (by decide)).2
     (sceneOfLoaded ldC) [tClean] (by decide) (by decide)⟩

/-- Claim C4: the outlier rejector removes exactly the landmarks whose
maximum angle at the 3D point between two observing camera centers is
strictly below the threshold, keeps a landmark whose maximum angle equals
the threshold, and returns the number of landmarks removed. -/
theorem removeOutliers_angle_spec (env : Env) (s : SfMData) (th : Rat) :
    (∀ L ∈ s.structure_,
      (maxPairAngle env L < th →
        L ∉ (RemoveOutliers_AngleError env s th).1.structure_)
      ∧ (th ≤ maxPairAngle env L →
        L ∈ (RemoveOutliers_AngleError env s th).1.structure_))
    ∧ (RemoveOutliers_AngleError env s th).2
        = s.structure_.length - (RemoveOutliers_AngleError env s th).1.structure_.length := by
  have hfst := removeOutliersLms_fst env th s.structure_
  have hsnd := removeOutliersLms_snd env th s.structure_
  constructor
  · intro L hL
    constructor
    · intro hlt hmem
      have hm : L ∈ (removeOutliersLms env th s.structure_).1 := hmem
      rw [hfst] at hm
      have hkeep := (List.mem_filter.mp hm).2
      simp [hlt] at hkeep
    · intro hge
      show L ∈ (removeOutliersLms env th s.structure_).1
      rw [hfst]
      exact List.mem_filter.mpr ⟨hL, by simp [not_lt.mpr hge]⟩
  · show (removeOutliersLms env th s.structure_).2
        = s.structure_.length - (removeOutliersLms env th s.structure_).1.length
    omega

/-- Claim C4 witness: with threshold 0, the landmark lmW has maximum angle
exactly at the threshold and is kept. -/
theorem removeOutliers_angle_spec_w :
    (0 : Rat) ≤ maxPairAngle envBase lmW
    ∧ lmW ∈ (RemoveOutliers_AngleError envBase sLm 0).1.structure_ :=
  ⟨by decide,
   ((removeOutliers_angle_spec envBase sLm 0).1 lmW (by decide)).2 (by decide)⟩

/-- Claim C5: the outlier rejector is idempotent - applied a second time
with the same threshold to the scene produced by the first application, it
removes 0 landmarks and leaves the scene unchanged. -/
theorem removeOutliers_angle_idempotent (env : Env) (s : SfMData) (th : Rat) :
    RemoveOutliers_AngleError env (RemoveOutliers_AngleError env s th).1 th
      = ((RemoveOutliers_AngleError env s th).1, 0) := by
  have hfst : (removeOutliersLms env th (removeOutliersLms env th s.structure_).1).1
      = (removeOutliersLms env th s.structure_).1 := by
    rw [removeOutliersLms_fst env th s.structure_, removeOutliersLms_fst,
        filter_filter_self]
  have hsnd : (removeOutliersLms env th (removeOutliersLms env th s.structure_).1).2 = 0 := by
    have h2 := removeOutliersLms_snd env th (removeOutliersLms env th s.structure_).1
    rw [hfst] at h2
    omega
  show ({ { s with structure_ := (removeOutliersLms env th s.structure_).1 } with
            structure_ := (removeOutliersLms env th (removeOutliersLms env th s.structure_).1).1 },
        (removeOutliersLms env th (removeOutliersLms env th s.structure_).1).2)
      = _
  rw [hfst, hsnd]
  rfl

/-- Read-only scene components carried unchanged from state a to state b. -/
def framePreserved (a b : SfMData) : Prop :=
  b.views = a.views ∧ b.intrinsics = a.intrinsics ∧ b.poses = a.poses

/-- The frame conditions over the six scene states of one pipeline run:
Views/Intrinsics/Poses identical in every state, and the landmark
container unchanged by every step except triangulation and outlier
rejection. -/
def traceFrameOK (tr : PipelineTrace) : Prop :=
  framePreserved tr.sLoaded tr.sCleared
  ∧ framePreserved tr.sLoaded tr.sMatched
  ∧ framePreserved tr.sLoaded tr.sFiltered
  ∧ framePreserved tr.sLoaded tr.sTriangulated
  ∧ framePreserved tr.sLoaded tr.sOutlierFiltered
  ∧ tr.sCleared.structure_ = tr.sLoaded.structure_
  ∧ tr.sMatched.structure_ = tr.sCleared.structure_
  ∧ tr.sFiltered.structure_ = tr.sMatched.structure_

/-- When `selectPairs` fails, the precomputed matches were unreadable. -/
theorem selectPairs_none {env : Env} {s : SfMData} {d : String}
    (h : selectPairs env s d = none) : env.loadMatches = none := by
  unfold selectPairs at h
  split at h
  · cases h
  · cases hm : env.loadMatches with
    | none => rfl
    | some ms => rw [hm] at h; cases h

/-- In precomputed-matches mode (a matches directory was supplied), an
unreadable matches file makes pair selection fail. -/
theorem selectPairs_matches_unreadable {env : Env} {s : SfMData} {d : String}
    (hd : d ≠ "") (hm : env.loadMatches = none) : selectPairs env s d = none := by
  unfold selectPairs
  rw [hm, beq_eq_false_iff_ne.mpr hd]
  rfl

theorem filter_none_length {α : Type} (p : α → Bool) :
    ∀ l : List α, (∀ a ∈ l, p a = false) → (l.filter p).length = 0 := by
  intro l
  induction l with
  | nil => intro _; rfl
  | cons x rest ih =>
    intro h
    have hx := h x (List.mem_cons_self x rest)
    simp only [List.filter_cons, hx]
    exact ih (fun a ha => h a (List.mem_cons_of_mem x ha))

/-- A successful `po::store` returns the argument map itself, and it never
holds a "help" entry, since no help option is declared in allParams. -/
theorem storeOptions_some {args vm : List OptArg}
    (h : storeOptions args = some vm) : vm = args ∧ vmCount vm "help" = 0 := by
  unfold storeOptions at h
  split at h
  next hall =>
    have hv : vm = args := (Option.some.inj h).symm
    subst hv
    refine ⟨rfl, ?_⟩
    unfold vmCount
    apply filter_none_length
    intro a ha
    have hrec : recognizedOptions.contains a.1 = true := by
      have hall' := List.all_eq_true.mp hall a ha
      simpa using hall'
    have hmem : a.1 ∈ recognizedOptions := by simpa using hrec
    cases hb : (a.1 == "help") with
    | false => rfl
    | true =>
      exfalso
      have heq : a.1 = "help" := by simpa using hb
      rw [heq] at hmem
      exact absurd hmem (by decide)
  next =>
    cases h

/-- Claim C6: across a whole pipeline run the Views, Intrinsics and Poses
of the scene are never mutated, and the landmark container is changed only
by the triangulate and outlier-rejection steps - loading (which does not
load structure), clearing, matching and filtering all leave it equal. -/
theorem scene_mutation_frame_conditions (env : Env) (args : List OptArg)
    (tr : PipelineTrace) (h : (mainRun env args).trace = some tr) :
    traceFrameOK tr := by
  rcases mainRun_cases env args with ⟨_, _, hnone, _⟩ | ⟨ld, pairs, hld, heq⟩
  · rw [hnone] at h; cases h
  · rw [heq] at h
    have ht : some (pipelineTraceOf env (sceneOfLoaded ld) pairs) = some tr := h
    have ht' := (Option.some.inj ht).symm
    subst ht'
    exact ⟨⟨rfl, rfl, rfl⟩, ⟨rfl, rfl, rfl⟩, ⟨rfl, rfl, rfl⟩, ⟨rfl, rfl, rfl⟩,
      ⟨rfl, rfl, rfl⟩, rfl, rfl, rfl⟩

/-- Claim C6 witness: a concrete complete run satisfies the frame
conditions. -/
theorem scene_mutation_frame_conditions_w :
    traceFrameOK (pipelineTraceOf envBase (sceneOfLoaded ldC)
      (getFrustumIntersectionPairs envBase (sceneOfLoaded ldC))) :=
  scene_mutation_frame_conditions envBase argsReq
    (pipelineTraceOf envBase (sceneOfLoaded ldC)
      (getFrustumIntersectionPairs envBase (sceneOfLoaded ldC))) rfl

/-- Claim C7: when the selected pair set is empty, the pipeline still runs
to completion, yields zero landmarks, and (provided the save itself
succeeds) terminates with success rather than reporting an error. -/
theorem empty_pair_set_not_an_error (env : Env) (args : List OptArg)
    (hp : (mainRun env args).selectedPairs = some [])
    (hs : env.saveOk = true) :
    (mainRun env args).exitCode = 0
    ∧ (mainRun env args).savedScene.map (fun sc => sc.structure_.length) = some 0 := by
  rcases mainRun_cases env args with ⟨hnone, _, _, _⟩ | ⟨ld, pairs, hld, heq⟩
  · rw [hnone] at hp; cases hp
  · rw [heq] at hp ⊢
    have hp' : some pairs = some [] := hp
    have hpairs := Option.some.inj hp'
    subst hpairs
    constructor
    · simp [runPipeline, hs]
    · simp [runPipeline, hs]
      rfl

/-- Claim C7 witness: a concrete run whose pair set is empty exits 0 with
zero landmarks. -/
theorem empty_pair_set_not_an_error_w :
    (mainRun envBase argsReq).exitCode = 0
    ∧ (mainRun envBase argsReq).savedScene.map (fun sc => sc.structure_.length)
        = some 0 :=
  empty_pair_set_not_an_error envBase argsReq rfl rfl

/-- Claim C8 counterexample: an invocation in which every input is
readable (the scene and the regions load; frustum mode, so no matches file
is needed - the pair set is even produced) still terminates with failure
status, because saving the output fails; so unreadable inputs are not the
only hard-failure conditions. -/
theorem readable_inputs_can_still_hard_fail :
    (mainRun envNoSave argsReq).exitCode = 1
    ∧ envNoSave.loadScene.isSome = true
    ∧ envNoSave.loadRegionsOk = true
    ∧ (mainRun envNoSave argsReq).selectedPairs = some [] :=
  ⟨rfl, rfl, rfl, rfl⟩

/-- Claim C8 (amended): an unreadable scene file, an unreadable regions
file, or (in precomputed-matches mode) an unreadable matches file makes
the program fail before any structure exists (nothing is saved, no
pipeline state is produced); a command-line parse error or missing
required options likewise terminate with failure status and nothing
saved; a failed run never saves a scene; and the hard-failure conditions
are exactly the unreadable-input conditions together with the
command-line errors and a failure to save the output. -/
theorem hard_failures_characterized (env : Env) (args : List OptArg) :
    (env.loadScene = none → (mainRun env args).usageShown = false →
      (mainRun env args).exitCode = 1
        ∧ (mainRun env args).savedScene = none
        ∧ (mainRun env args).trace = none)
    ∧ (env.loadRegionsOk = false → (mainRun env args).usageShown = false →
      (mainRun env args).exitCode = 1
        ∧ (mainRun env args).savedScene = none
        ∧ (mainRun env args).trace = none)
    ∧ (∀ vm, storeOptions args = some vm →
        optValue vm "matchesDirectory" "" ≠ "" → env.loadMatches = none →
        (mainRun env args).usageShown = false →
        (mainRun env args).exitCode = 1
          ∧ (mainRun env args).savedScene = none
          ∧ (mainRun env args).trace = none)
    ∧ (storeOptions args = none →
        (mainRun env args).exitCode = 1
          ∧ (mainRun env args).savedScene = none
          ∧ (mainRun env args).trace = none)
    ∧ (∀ vm, storeOptions args = some vm → requiredPresent vm = false →
        args ≠ [] →
        (mainRun env args).exitCode = 1
          ∧ (mainRun env args).failedRequired = true
          ∧ (mainRun env args).savedScene = none
          ∧ (mainRun env args).trace = none)
    ∧ ((mainRun env args).exitCode = 1 → (mainRun env args).savedScene = none)
    ∧ ((mainRun env args).exitCode = 1 →
        storeOptions args = none
        ∨ (mainRun env args).failedRequired = true
        ∨ env.loadScene = none
        ∨ env.loadRegionsOk = false
        ∨ env.loadMatches = none
        ∨ env.saveOk = false) := by
  unfold mainRun
  split
  next hst =>
    refine ⟨fun _ h => Bool.noConfusion h, fun _ h => Bool.noConfusion h,
      fun vm hvm => ?_, fun _ => ⟨rfl, rfl, rfl⟩, fun vm hvm => ?_,
      fun _ => rfl, fun _ => Or.inl hst⟩
    · rw [hst] at hvm; cases hvm
    · rw [hst] at hvm; cases hvm
  next vm hst =>
    split
    next h1 =>
      refine ⟨fun _ h => Bool.noConfusion h, fun _ h => Bool.noConfusion h,
        fun _ _ _ _ h => Bool.noConfusion h, fun hn => ?_,
        fun vm' hvm' _ hne => ?_, fun h => by simp at h, fun h => by simp at h⟩
      · rw [hst] at hn; cases hn
      · exfalso
        have hhelp := (storeOptions_some hst).2
        rw [hhelp] at h1
        simp at h1
        exact hne h1
    next h1 =>
      split
      next h2 =>
        refine ⟨fun _ h => Bool.noConfusion h, fun _ h => Bool.noConfusion h,
          fun _ _ _ _ h => Bool.noConfusion h, fun hn => ?_,
          fun vm' hvm' _ _ => ⟨rfl, rfl, rfl, rfl⟩,
          fun _ => rfl, fun _ => Or.inr (Or.inl rfl)⟩
        rw [hst] at hn
        cases hn
      next h2 =>
        have hrp : requiredPresent vm = true := by
          cases hb : requiredPresent vm
          · rw [hb] at h2; simp at h2
          · rfl
        split
        next hld =>
          refine ⟨fun _ _ => ⟨rfl, rfl, rfl⟩, fun _ _ => ⟨rfl, rfl, rfl⟩,
            fun _ _ _ _ _ => ⟨rfl, rfl, rfl⟩, fun _ => ⟨rfl, rfl, rfl⟩,
            fun vm' hvm' hr _ => ?_,
            fun _ => rfl, fun _ => Or.inr (Or.inr (Or.inl hld))⟩
          · exfalso
            rw [hst] at hvm'
            rw [(Option.some.inj hvm').symm] at hr
            rw [hr] at hrp
            cases hrp
        next ld hld =>
          split
          next hreg =>
            refine ⟨fun hn _ => ?_, fun _ _ => ⟨rfl, rfl, rfl⟩,
              fun _ _ _ _ _ => ⟨rfl, rfl, rfl⟩, fun _ => ⟨rfl, rfl, rfl⟩,
              fun vm' hvm' hr _ => ?_, fun _ => rfl, fun _ => ?_⟩
            · rw [hld] at hn; cases hn
            · exfalso
              rw [hst] at hvm'
              rw [(Option.some.inj hvm').symm] at hr
              rw [hr] at hrp
              cases hrp
            · exact Or.inr (Or.inr (Or.inr (Or.inl (by simpa using hreg))))
          next hreg =>
            split
            next hsel =>
              refine ⟨fun hn _ => ?_, fun hr _ => ?_,
                fun _ _ _ _ _ => ⟨rfl, rfl, rfl⟩, fun _ => ⟨rfl, rfl, rfl⟩,
                fun vm' hvm' hr _ => ?_, fun _ => rfl, fun _ => ?_⟩
              · rw [hld] at hn; cases hn
              · rw [hr] at hreg; simp at hreg
              · exfalso
                rw [hst] at hvm'
                rw [(Option.some.inj hvm').symm] at hr
                rw [hr] at hrp
                cases hrp
              · exact Or.inr (Or.inr (Or.inr (Or.inr (Or.inl (selectPairs_none hsel)))))
            next pairs hsel =>
              refine ⟨fun hn _ => ?_, fun hr _ => ?_, fun vm' hvm' hdir hlm _ => ?_,
                fun hn => ?_, fun vm' hvm' hr _ => ?_, fun h => ?_, fun h => ?_⟩
              · rw [hld] at hn; cases hn
              · rw [hr] at hreg; simp at hreg
              · exfalso
                rw [hst] at hvm'
                rw [(Option.some.inj hvm').symm] at hdir
                rw [selectPairs_matches_unreadable hdir hlm] at hsel
                cases hsel
              · rw [hst] at hn; cases hn
              · exfalso
                rw [hst] at hvm'
                rw [(Option.some.inj hvm').symm] at hr
                rw [hr] at hrp
                cases hrp
              · cases hsv : env.saveOk
                · simp [runPipeline, hsv]
                · simp [runPipeline, hsv] at h
              · cases hsv : env.saveOk
                · exact Or.inr (Or.inr (Or.inr (Or.inr (Or.inr rfl))))
                · simp [runPipeline, hsv] at h

/-- Claim C8 witness for the amended claim: concrete runs exercising the
four failure families - unreadable scene, unreadable matches file in
precomputed mode, command-line parse error, and missing required
options - each exit 1 with nothing saved and no pipeline state. -/
theorem hard_failures_characterized_w :
    ((mainRun envNoScene argsReq).exitCode = 1
      ∧ (mainRun envNoScene argsReq).savedScene = none
      ∧ (mainRun envNoScene argsReq).trace = none)
    ∧ ((mainRun envBase argsMatches).exitCode = 1
      ∧ (mainRun envBase argsMatches).savedScene = none
      ∧ (mainRun envBase argsMatches).trace = none)
    ∧ ((mainRun envBase argsBad).exitCode = 1
      ∧ (mainRun envBase argsBad).savedScene = none
      ∧ (mainRun envBase argsBad).trace = none)
    ∧ ((mainRun envBase argsOnlyVerbose).exitCode = 1
      ∧ (mainRun envBase argsOnlyVerbose).failedRequired = true
      ∧ (mainRun envBase argsOnlyVerbose).savedScene = none
      ∧ (mainRun envBase argsOnlyVerbose).trace = none) :=
  ⟨(hard_failures_characterized envNoScene argsReq).1 rfl rfl,
   (hard_failures_characterized envBase argsMatches).2.2.1 argsMatches rfl
     (by decide) rfl rfl,
   (hard_failures_characterized envBase argsBad).2.2.2.1 rfl,
   (hard_failures_characterized envBase argsOnlyVerbose).2.2.2.2.1
     argsOnlyVerbose rfl rfl (by decide)⟩

/-- Claim C9: the angle threshold handed to the outlier rejector is the
fixed constant 2.0 - whatever the environment and whatever command-line
options are supplied, any threshold actually used equals 2. -/
theorem outlier_threshold_is_fixed_two (env : Env) (args : List OptArg) (q : Rat)
    (h : (mainRun env args).usedThreshold = some q) : q = 2 := by
  rcases mainRun_cases env args with ⟨_, hnone, _, _⟩ | ⟨ld, pairs, hld, heq⟩
  · rw [hnone] at h; cases h
  · rw [heq] at h
    have h2 : some (2 : Rat) = some q := h
    exact (Option.some.inj h2).symm

/-- Claim C9 witness: a concrete run actually uses threshold 2. -/
theorem outlier_threshold_is_fixed_two_w :
    (mainRun envBase argsReq).usedThreshold = some 2 ∧ (2 : Rat) = 2 :=
  ⟨rfl, outlier_threshold_is_fixed_two envBase argsReq 2 rfl⟩

/-- Claim C10: invoked with no arguments at all, the program prints the
usage description and exits with success even though the required
parameters are missing; the missing-required-parameter failure is only
reachable when at least one argument is supplied. -/
theorem no_args_prints_usage_and_succeeds :
    (∀ env : Env, (mainRun env []).exitCode = 0 ∧ (mainRun env []).usageShown = true)
    ∧ (∀ (env : Env) (args : List OptArg),
        (mainRun env args).failedRequired = true → args ≠ []) := by
  constructor
  · intro env
    exact ⟨rfl, rfl⟩
  · intro env args h hargs
    subst hargs
    exact Bool.noConfusion h

/-- Claim C10 witness: one supplied (recognized) argument with the
required parameters missing does reach the missing-required failure. -/
theorem no_args_prints_usage_and_succeeds_w :
    (mainRun envBase argsOnlyVerbose).failedRequired = true
    ∧ argsOnlyVerbose ≠ ([] : List OptArg) :=
  ⟨rfl, no_args_prints_usage_and_succeeds.2 envBase argsOnlyVerbose rfl⟩

end AVKnownPoses
